import Mathlib

/-
Shallow embedding of the PredictIT pipeline session controller
(client/src/store/pipelineStore.ts) and the training driver of the results
step component. Machine-level concerns (timers, console logging, the HTTP
transport) are not modelled; remote call outcomes are passed in explicitly
as Except values, and browser localStorage is modelled as a single
Option-valued slot (the one STORAGE_KEY entry).
-/

/-- Dataset summary built from a successful upload response
(DataUploadStep.tsx, the info object of handleFileUpload). -/
structure DatasetInfo where
  filename : String
  columns : List String
  rowCount : Nat
  dataTypes : List (String × String)
  sampleData : List (List (String × String))
  numericColumns : List String
  categoricalColumns : List String
deriving Repr, DecidableEq

/-- Preprocessing configuration: the chosen scaler string. -/
structure PreprocessingConfig where
  scaler : String
deriving Repr, DecidableEq

/-- Train/test split configuration. Ratios are modelled as rationals. -/
structure SplitConfig where
  splitRatio : Rat
deriving Repr, DecidableEq

/-- Model configuration: model type, target column, feature columns. -/
structure ModelConfig where
  modelType : String
  targetColumn : String
  featureColumns : List String
deriving Repr, DecidableEq

/-- Training result as returned by the train endpoint and consumed by the
results UI (accuracy plus confusion matrix). -/
structure TrainingResult where
  accuracy : Rat
  confusion_matrix : List (List Nat)
deriving Repr, DecidableEq

/-- Phases of the animation state machine of the pipeline store. -/
inductive Phase
  | idle
  | uploading
  | preprocessing
  | splitting
  | training
  | evaluating
  | complete
deriving Repr, DecidableEq

/-- Animation (progress narration) state. -/
structure AnimationState where
  currentPhase : Phase
  progress : Nat
  message : String
deriving Repr, DecidableEq

/-- In-memory state of the zustand pipeline store (PipelineState fields). -/
structure PipelineState where
  sessionId : Option String
  isRunning : Bool
  results : Option TrainingResult
  currentStep : Nat
  datasetInfo : Option DatasetInfo
  preprocessingConfig : Option PreprocessingConfig
  splitConfig : Option SplitConfig
  modelConfig : Option ModelConfig
  fileUrl : Option String
  fileName : Option String
  animationState : AnimationState
deriving Repr, DecidableEq

/-- initialAnimationState from the store. -/
def initialAnimationState : AnimationState :=
  { currentPhase := Phase.idle, progress := 0, message := "Ready to start" }

/-- initialState from the store. -/
def initialState : PipelineState :=
  { sessionId := none
    isRunning := false
    results := none
    currentStep := 1
    datasetInfo := none
    preprocessingConfig := none
    splitConfig := none
    modelConfig := none
    fileUrl := none
    fileName := none
    animationState := initialAnimationState }

/-- Snapshot written to the localStorage slot by saveToStorage
(persistedState object, pipelineStore lines 312-323). -/
structure PersistedState where
  sessionId : Option String
  currentStep : Nat
  datasetInfo : Option DatasetInfo
  preprocessingConfig : Option PreprocessingConfig
  splitConfig : Option SplitConfig
  modelConfig : Option ModelConfig
  results : Option TrainingResult
  fileUrl : Option String
  fileName : Option String
  timestamp : Nat
deriving Repr, DecidableEq

/-- The snapshot captured from a state at a given clock reading. -/
def persistedOf (s : PipelineState) (now : Nat) : PersistedState :=
  { sessionId := s.sessionId
    currentStep := s.currentStep
    datasetInfo := s.datasetInfo
    preprocessingConfig := s.preprocessingConfig
    splitConfig := s.splitConfig
    modelConfig := s.modelConfig
    results := s.results
    fileUrl := s.fileUrl
    fileName := s.fileName
    timestamp := now }

/-- saveToStorage: serializes the persisted fields plus a timestamp into the
single STORAGE_KEY slot. The try/catch around localStorage.setItem only
swallows storage write failures; this model covers the successful write. -/
def saveToStorage (s : PipelineState) (now : Nat) : Option PersistedState :=
  some (persistedOf s now)

/-- Expiry horizon of loadFromStorage: 24 hours in milliseconds. -/
def expiryMs : Nat := 24 * 60 * 60 * 1000

/-- The hasRealProgress check of loadFromStorage: a dataset must be present
and at least one downstream config or a result. -/
def hasRealProgress (p : PersistedState) : Bool :=
  p.datasetInfo.isSome &&
    (p.preprocessingConfig.isSome || p.splitConfig.isSome ||
     p.modelConfig.isSome || p.results.isSome)

/-- loadFromStorage: given the in-memory state, the storage slot and the
current clock, returns the new in-memory state and the new storage slot.
Expired snapshots are removed and not surfaced; snapshots without real
progress are returned to storage untouched but not surfaced; otherwise the
persisted fields are copied into the state (a stored step of 0 is restored
as 1, mirroring the JS expression with the falsy default of 1). -/
def loadFromStorage (s : PipelineState) (storage : Option PersistedState)
    (now : Nat) : PipelineState × Option PersistedState :=
  match storage with
  | none => (s, none)
  | some p =>
      if (expiryMs : Int) < (now : Int) - (p.timestamp : Int) then
        (s, none)
      else if !(hasRealProgress p) then
        (s, some p)
      else
        ({ s with
            sessionId := p.sessionId
            currentStep := if p.currentStep = 0 then 1 else p.currentStep
            datasetInfo := p.datasetInfo
            preprocessingConfig := p.preprocessingConfig
            splitConfig := p.splitConfig
            modelConfig := p.modelConfig
            results := p.results
            fileUrl := p.fileUrl
            fileName := p.fileName }, some p)

/-- setSessionId store action: set the field, then saveToStorage. -/
def setSessionId (s : PipelineState) (sessionId : String) (now : Nat) :
    PipelineState × Option PersistedState :=
  let s2 := { s with sessionId := some sessionId }
  (s2, saveToStorage s2 now)

/-- setDatasetInfo store action: set the field, then saveToStorage. -/
def setDatasetInfo (s : PipelineState) (info : DatasetInfo) (now : Nat) :
    PipelineState × Option PersistedState :=
  let s2 := { s with datasetInfo := some info }
  (s2, saveToStorage s2 now)

/-- setFileInfo store action: set both file fields, then saveToStorage. -/
def setFileInfo (s : PipelineState) (url : Option String)
    (fileName : Option String) (now : Nat) :
    PipelineState × Option PersistedState :=
  let s2 := { s with fileUrl := url, fileName := fileName }
  (s2, saveToStorage s2 now)

/-- Shape of a successful upload response consumed by handleFileUpload. -/
structure UploadResponse where
  session_id : String
  columns : List String
  row_count : Nat
  data_types : List (String × String)
  sample_data : List (List (String × String))
  numeric_columns : List String
  categorical_columns : List String
deriving Repr, DecidableEq

/-- The successful branch of handleFileUpload in DataUploadStep.tsx:
setSessionId with the response session id, setFileInfo with a null URL and
the file name, then setDatasetInfo with the info object built from the
response. Returns the final state and the last storage write. -/
def handleFileUploadSuccess (s : PipelineState) (file : String)
    (resp : UploadResponse) (now : Nat) :
    PipelineState × Option PersistedState :=
  let s1 := (setSessionId s resp.session_id now).1
  let s2 := (setFileInfo s1 none (some file) now).1
  let info : DatasetInfo :=
    { filename := file
      columns := resp.columns
      rowCount := resp.row_count
      dataTypes := resp.data_types
      sampleData := resp.sample_data
      numericColumns := resp.numeric_columns
      categoricalColumns := resp.categorical_columns }
  setDatasetInfo s2 info now

/-- getCompletedSteps computed getter of the store. -/
def getCompletedSteps (s : PipelineState) : Nat :=
  (if s.datasetInfo.isSome then 1 else 0) +
  (if s.preprocessingConfig.isSome then 1 else 0) +
  (if s.splitConfig.isSome then 1 else 0) +
  (if s.modelConfig.isSome then 1 else 0) +
  (if s.results.isSome then 1 else 0)

/-- canProceedToStep computed getter of the store: a switch over the step
number testing presence (JS truthiness) of the accumulated configs. -/
def canProceedToStep (s : PipelineState) (step : Nat) : Bool :=
  match step with
  | 1 => true
  | 2 => s.datasetInfo.isSome
  | 3 => s.datasetInfo.isSome && s.preprocessingConfig.isSome
  | 4 => s.datasetInfo.isSome && s.preprocessingConfig.isSome &&
         s.splitConfig.isSome
  | 5 => s.datasetInfo.isSome && s.preprocessingConfig.isSome &&
         s.splitConfig.isSome && s.modelConfig.isSome
  | _ => false

/-- Presence of the configuration produced by step k (step 1 uploads the
dataset, step 2 picks the scaler, step 3 the split, step 4 the model). -/
def stepConfigPresent (s : PipelineState) (k : Nat) : Bool :=
  match k with
  | 1 => s.datasetInfo.isSome
  | 2 => s.preprocessingConfig.isSome
  | 3 => s.splitConfig.isSome
  | 4 => s.modelConfig.isSome
  | _ => true

/-- Modelled from the spec: full validity of ModelConfig as the spec words
it (model kind, target and at least one feature all present). The store
itself never checks this; it is stated here for comparison with
canProceedToStep. -/
def specFullyValidModelConfig : Option ModelConfig → Bool
  | none => false
  | some m =>
      !(m.modelType == "") && !(m.targetColumn == "") &&
        !m.featureColumns.isEmpty

/-- Result of resetPipeline and startNewPipeline: the new in-memory state,
the storage slot after localStorage.removeItem, and the session id for
which server-side cleanup was requested (none when no session was live). -/
structure ResetOutcome where
  state : PipelineState
  storage : Option PersistedState
  cleanupRequested : Option String
deriving Repr, DecidableEq

/-- resetPipeline: fires a best-effort cleanup request for the live session
if any (its outcome is caught and only logged, never observed further),
resets the state to initialState and removes the stored snapshot. The
cleanupOutcome argument is the result of that request; the source attaches
a catch handler, so the outcome never influences the rest. -/
def resetPipeline (s : PipelineState) (storage : Option PersistedState)
    (cleanupOutcome : Except String Unit) : ResetOutcome :=
  let requested := s.sessionId
  let _ignored := cleanupOutcome
  let _old := storage
  { state := initialState, storage := none, cleanupRequested := requested }

/-- startNewPipeline: same cleanup request and reset as resetPipeline; the
source afterwards only logs and never reloads from storage. -/
def startNewPipeline (s : PipelineState) (storage : Option PersistedState)
    (cleanupOutcome : Except String Unit) : ResetOutcome :=
  let requested := s.sessionId
  let _ignored := cleanupOutcome
  let _old := storage
  { state := initialState, storage := none, cleanupRequested := requested }

/-- Project record as fetched from the backend by loadProject. -/
structure Project where
  name : String
  session_id : Option String
  dataset_info : Option DatasetInfo
  preprocessing_config : Option PreprocessingConfig
  split_config : Option SplitConfig
  model_config : Option ModelConfig
  results : Option TrainingResult
  file_url : Option String
deriving Repr, DecidableEq

/-- The successful branch of loadProject (response.ok): copies the project
fields into the store, derives fileName from the dataset filename, forces
currentStep to 4 and saves to storage. -/
def loadProjectApply (s : PipelineState) (p : Project) (now : Nat) :
    PipelineState × Option PersistedState :=
  let s2 := { s with
    sessionId := p.session_id
    datasetInfo := p.dataset_info
    preprocessingConfig := p.preprocessing_config
    splitConfig := p.split_config
    modelConfig := p.model_config
    results := p.results
    fileUrl := p.file_url
    fileName := p.dataset_info.map DatasetInfo.filename
    currentStep := 4 }
  (s2, saveToStorage s2 now)

/-- Observable state touched by runTraining in ResultsStep: the component
local results and error, the two busy flags, the store results and the
animation state. -/
structure RunObs where
  localResults : Option TrainingResult
  storeResults : Option TrainingResult
  error : Option String
  isTraining : Bool
  isRunning : Bool
  anim : AnimationState
deriving Repr, DecidableEq

/-- Configuration read by runTraining from the store. -/
structure RunInputs where
  sessionId : Option String
  preprocessingConfig : Option PreprocessingConfig
  splitConfig : Option SplitConfig
  modelConfig : Option ModelConfig
deriving Repr, DecidableEq

/-- The trainRequest object sent to the train endpoint. -/
structure TrainRequest where
  session_id : String
  model_type : String
  split_ratio : Rat
  target_column : String
  feature_columns : List String
  preprocessing_steps : List String
deriving Repr, DecidableEq

/-- Result of one runTraining call: the sequence of observable states after
each mutation point (the last element is the state after the finally
block), that final state again for direct access, and the train request
that was issued, if the run reached it. -/
structure RunResult where
  trace : List RunObs
  final : RunObs
  request : Option TrainRequest
deriving Repr, DecidableEq

/-- The guard expression of runTraining on the model config: JS truthiness
of modelType, targetColumn and featureColumns.length. -/
def modelConfigIncomplete (mc : ModelConfig) : Bool :=
  mc.modelType == "" || mc.targetColumn == "" || mc.featureColumns.isEmpty

/-- JS truthiness condition guarding the preprocessing call and the
preprocessing_steps list: a scaler string that is non-empty and not the
literal none. -/
def scalerActiveC (c : PreprocessingConfig) : Bool :=
  !(c.scaler == "") && !(c.scaler == "none")

/-- scalerActiveC lifted over the optional preprocessing config. -/
def scalerActive : Option PreprocessingConfig → Bool
  | none => false
  | some c => scalerActiveC c

/-- preprocessing_steps field of the trainRequest. -/
def preprocessingSteps : Option PreprocessingConfig → List String
  | none => []
  | some c => if scalerActiveC c then [c.scaler] else []

/-- The effective scaler choice: none when no config is present or the
scaler string is empty (both falsy in the source), the scaler otherwise. -/
def effectiveScaler : Option PreprocessingConfig → Option String
  | none => none
  | some c => if c.scaler == "" then none else some c.scaler

/-- split_ratio field of the trainRequest: the JS or-default expression
over the optional split config (a ratio of 0 is falsy and also defaults). -/
def splitRatioArg : Option SplitConfig → Rat
  | none => 0.2
  | some sc => if sc.splitRatio = 0 then 0.2 else sc.splitRatio

/-- Error message selection of the catch block: the thrown message, with
the generic fallback when it is empty. -/
def errMessage (m : String) : String :=
  if m == "" then "Training failed" else m

/-- Effect of the catch block followed by the finally block: setError,
animation reset to idle at 0 percent, busy flags cleared. -/
def failObs (cur : RunObs) (msg : String) : RunObs :=
  { cur with
      error := some (errMessage msg)
      anim := { currentPhase := Phase.idle, progress := 0,
                message := "Training failed" }
      isTraining := false
      isRunning := false }

/-- Continuation of runTraining after the optional preprocessing phase:
splitting and training narration, the train call, then either the failure
path or evaluation, completion, result commit and the finally block. -/
def runTrainingRest (sid : String) (mc : ModelConfig)
    (pre : Option PreprocessingConfig) (split : Option SplitConfig)
    (cur : RunObs) (sofar : List RunObs)
    (trainOut : Except String TrainingResult) : RunResult :=
  let s3 := { cur with anim :=
    { currentPhase := Phase.splitting, progress := 50,
      message := "Splitting data into train and test sets..." } }
  let s4 := { s3 with anim :=
    { currentPhase := Phase.training, progress := 70,
      message := "Training " ++ mc.modelType ++ " model..." } }
  let req : TrainRequest :=
    { session_id := sid
      model_type := mc.modelType
      split_ratio := splitRatioArg split
      target_column := mc.targetColumn
      feature_columns := mc.featureColumns
      preprocessing_steps := preprocessingSteps pre }
  match trainOut with
  | Except.error e =>
      let f := failObs s4 e
      { trace := sofar ++ [s3, s4, f], final := f, request := some req }
  | Except.ok resp =>
      let s5 := { s4 with anim :=
        { currentPhase := Phase.evaluating, progress := 90,
          message := "Evaluating model performance..." } }
      let s6 := { s5 with anim :=
        { currentPhase := Phase.complete, progress := 100,
          message := "Training completed successfully!" } }
      let s7 := { s6 with localResults := some resp,
                          storeResults := some resp }
      let s8 := { s7 with isTraining := false, isRunning := false }
      { trace := sofar ++ [s3, s4, s5, s6, s7, s8], final := s8,
        request := some req }

/-- runTraining of ResultsStep.tsx: the three early-return guards, the
start-of-run mutations (busy flags on, error and local results cleared),
the uploading narration, the optional preprocessing call, then
runTrainingRest. Remote call outcomes are supplied as arguments. -/
def runTraining (inp : RunInputs) (o : RunObs)
    (preOut : Except String Unit)
    (trainOut : Except String TrainingResult) : RunResult :=
  match inp.sessionId with
  | none =>
      let f := { o with error := some "No dataset uploaded" }
      { trace := [f], final := f, request := none }
  | some sid =>
  match inp.modelConfig with
  | none =>
      let f := { o with error := some "Model configuration is missing" }
      { trace := [f], final := f, request := none }
  | some mc =>
  if modelConfigIncomplete mc then
    let msg :=
      "Please complete model configuration: select model type, target column, and feature columns"
    let f := { o with error := some msg }
    { trace := [f], final := f, request := none }
  else
    let s0 := { o with isTraining := true, isRunning := true,
                       error := none, localResults := none }
    let s1 := { s0 with anim :=
      { currentPhase := Phase.uploading, progress := 10,
        message := "Loading your dataset..." } }
    match inp.preprocessingConfig with
    | some c =>
        if scalerActiveC c then
          let s2 := { s1 with anim :=
            { currentPhase := Phase.preprocessing, progress := 30,
              message := "Applying " ++ c.scaler ++ "..." } }
          match preOut with
          | Except.error e =>
              let f := failObs s2 e
              { trace := [s0, s1, s2, f], final := f, request := none }
          | Except.ok _ =>
              runTrainingRest sid mc (some c) inp.splitConfig s2
                [s0, s1, s2] trainOut
        else
          runTrainingRest sid mc (some c) inp.splitConfig s1
            [s0, s1] trainOut
    | none =>
        runTrainingRest sid mc none inp.splitConfig s1 [s0, s1] trainOut

/-- Sample dataset descriptor used in concrete evaluations. -/
def dataA : DatasetInfo :=
  { filename := "data.csv"
    columns := ["a", "b", "y"]
    rowCount := 100
    dataTypes := [("a", "float64"), ("b", "float64"), ("y", "int64")]
    sampleData := []
    numericColumns := ["a", "b"]
    categoricalColumns := [] }

/-- Sample fully valid model config. -/
def mcValid : ModelConfig :=
  { modelType := "LogisticRegression", targetColumn := "y",
    featureColumns := ["a", "b"] }

/-- Sample model config with every field empty: present in the store but
with no chosen kind, target or features. -/
def mcEmpty : ModelConfig :=
  { modelType := "", targetColumn := "", featureColumns := [] }

/-- Sample training result of an earlier run. -/
def resOld : TrainingResult :=
  { accuracy := 0.8, confusion_matrix := [[40, 5], [3, 52]] }

/-- Sample training result of a fresh run. -/
def resNew : TrainingResult :=
  { accuracy := 0.9, confusion_matrix := [[45, 2], [1, 52]] }

/-- Sample state with every step configured and a stored result. -/
def sFull : PipelineState :=
  { initialState with
      sessionId := some "sess-1"
      currentStep := 5
      datasetInfo := some dataA
      preprocessingConfig := some { scaler := "StandardScaler" }
      splitConfig := some { splitRatio := 0.3 }
      modelConfig := some mcValid
      results := some resOld
      fileName := some "data.csv" }

/-- sFull with the model config replaced by the all-empty one. -/
def sFullEmptyMC : PipelineState :=
  { sFull with modelConfig := some mcEmpty }

/-- Sample state where only the dataset has been uploaded and the user has
moved on to step 2: no downstream configuration yet. -/
def sDatasetOnly : PipelineState :=
  { initialState with
      sessionId := some "sess-1"
      currentStep := 2
      datasetInfo := some dataA
      fileName := some "data.csv" }

/-- Sample upload response for a second, different dataset. -/
def respB : UploadResponse :=
  { session_id := "sess-2"
    columns := ["p", "q"]
    row_count := 7
    data_types := [("p", "float64"), ("q", "float64")]
    sample_data := []
    numeric_columns := ["p", "q"]
    categorical_columns := [] }

/-- Observable component state right after a first successful training run:
both the local display and the store hold the old result and the animation
sits at complete and 100 percent. -/
def retrainObs : RunObs :=
  { localResults := some resOld
    storeResults := some resOld
    error := none
    isTraining := false
    isRunning := false
    anim := { currentPhase := Phase.complete, progress := 100,
              message := "Training completed successfully!" } }

/-- C1 (counterexample): starting from a state with every configuration and
a stored result, completing a new dataset upload replaces the dataset but
leaves the preprocessing, split and model configs and the training result
in place, contradicting the claimed cascade invalidation. -/
theorem upload_cascade_cex :
    (handleFileUploadSuccess sFull "new.csv" respB 0).1.preprocessingConfig ≠ none ∧
    (handleFileUploadSuccess sFull "new.csv" respB 0).1.splitConfig ≠ none ∧
    (handleFileUploadSuccess sFull "new.csv" respB 0).1.modelConfig ≠ none ∧
    (handleFileUploadSuccess sFull "new.csv" respB 0).1.results ≠ none ∧
    (handleFileUploadSuccess sFull "new.csv" respB 0).1.datasetInfo ≠ sFull.datasetInfo := by
  decide

/-- C1 (amended): completing a new dataset upload (handleFileUpload success
path, and the setDatasetInfo action it ends with) replaces the
DatasetDescriptor wholesale but leaves PreprocessingConfig, SplitConfig,
ModelConfig and TrainingResult exactly as they were: no cascade clearing of
downstream configuration takes place. -/
theorem upload_preserves_downstream (s : PipelineState) (file : String)
    (resp : UploadResponse) (info : DatasetInfo) (now : Nat) :
    ((handleFileUploadSuccess s file resp now).1.preprocessingConfig
        = s.preprocessingConfig ∧
     (handleFileUploadSuccess s file resp now).1.splitConfig = s.splitConfig ∧
     (handleFileUploadSuccess s file resp now).1.modelConfig = s.modelConfig ∧
     (handleFileUploadSuccess s file resp now).1.results = s.results ∧
     (handleFileUploadSuccess s file resp now).1.datasetInfo
        = some { filename := file
                 columns := resp.columns
                 rowCount := resp.row_count
                 dataTypes := resp.data_types
                 sampleData := resp.sample_data
                 numericColumns := resp.numeric_columns
                 categoricalColumns := resp.categorical_columns }) ∧
    ((setDatasetInfo s info now).1.preprocessingConfig = s.preprocessingConfig ∧
     (setDatasetInfo s info now).1.splitConfig = s.splitConfig ∧
     (setDatasetInfo s info now).1.modelConfig = s.modelConfig ∧
     (setDatasetInfo s info now).1.results = s.results ∧
     (setDatasetInfo s info now).1.datasetInfo = some info) :=
  ⟨⟨rfl, rfl, rfl, rfl, rfl⟩, ⟨rfl, rfl, rfl, rfl, rfl⟩⟩

/-- C6: loadFromStorage treats a snapshot older than the 24-hour horizon as
absent: the in-memory state is unchanged and the stored snapshot is removed
from storage. -/
theorem loadFromStorage_expired_cleared (t : PipelineState)
    (p : PersistedState) (now : Nat)
    (h : (expiryMs : Int) < (now : Int) - (p.timestamp : Int)) :
    loadFromStorage t (some p) now = (t, none) := by
  simp [loadFromStorage, h]

/-- Witness for C6: a snapshot captured 25 hours in the past (timestamp 0,
clock at 25 hours in milliseconds) reads back as absent and is cleared. -/
theorem loadFromStorage_expired_cleared_witness :
    ((expiryMs : Int) < ((90000000 : Nat) : Int) - (((persistedOf sFull 0).timestamp : Nat) : Int)) ∧
    loadFromStorage initialState (some (persistedOf sFull 0)) 90000000
      = (initialState, none) :=
  ⟨by decide,
   loadFromStorage_expired_cleared initialState (persistedOf sFull 0) 90000000
     (by decide)⟩

/-- C7: after startNewPipeline, the state is the initial one, the snapshot
slot is empty, and a subsequent loadFromStorage restores nothing: it
returns the state unchanged and the slot still empty, for any prior state,
any stored snapshot, any cleanup outcome and any clock. -/
theorem startNewPipeline_suppresses_restore (s : PipelineState)
    (storage : Option PersistedState) (cleanupOutcome : Except String Unit)
    (now : Nat) :
    (startNewPipeline s storage cleanupOutcome).state = initialState ∧
    (startNewPipeline s storage cleanupOutcome).storage = none ∧
    loadFromStorage (startNewPipeline s storage cleanupOutcome).state
        (startNewPipeline s storage cleanupOutcome).storage now
      = (initialState, none) :=
  ⟨rfl, rfl, rfl⟩

/-- C8: resetPipeline and startNewPipeline request server-side cleanup for
exactly the live session id, and their result is identical whatever the
cleanup request returned: the local state is reset and the snapshot slot
cleared in every case, and no error is ever propagated (both are total
functions into ResetOutcome). -/
theorem release_cleanup_best_effort (s : PipelineState)
    (storage : Option PersistedState) (o1 o2 : Except String Unit) :
    resetPipeline s storage o1 = resetPipeline s storage o2 ∧
    (resetPipeline s storage o1).cleanupRequested = s.sessionId ∧
    (resetPipeline s storage o1).state = initialState ∧
    (resetPipeline s storage o1).storage = none ∧
    startNewPipeline s storage o1 = startNewPipeline s storage o2 ∧
    (startNewPipeline s storage o1).cleanupRequested = s.sessionId ∧
    (startNewPipeline s storage o1).state = initialState ∧
    (startNewPipeline s storage o1).storage = none :=
  ⟨rfl, rfl, rfl, rfl, rfl, rfl, rfl, rfl⟩

/-- C9: a successful project fetch always repositions the wizard at step 4,
whatever state it was in before, and restores the session id, dataset,
configs, results and file reference from the project (the file name being
derived from the dataset filename). -/
theorem loadProject_repositions_step4 (s : PipelineState) (p : Project)
    (now : Nat) :
    (loadProjectApply s p now).1.currentStep = 4 ∧
    (loadProjectApply s p now).1.sessionId = p.session_id ∧
    (loadProjectApply s p now).1.datasetInfo = p.dataset_info ∧
    (loadProjectApply s p now).1.preprocessingConfig = p.preprocessing_config ∧
    (loadProjectApply s p now).1.splitConfig = p.split_config ∧
    (loadProjectApply s p now).1.modelConfig = p.model_config ∧
    (loadProjectApply s p now).1.results = p.results ∧
    (loadProjectApply s p now).1.fileUrl = p.file_url ∧
    (loadProjectApply s p now).1.fileName
      = p.dataset_info.map DatasetInfo.filename :=
  ⟨rfl, rfl, rfl, rfl, rfl, rfl, rfl, rfl, rfl⟩

/-- Helper: shape of loadFromStorage on an unexpired snapshot with real
progress. -/
theorem loadFromStorage_fresh (t : PipelineState) (p : PersistedState)
    (now : Nat)
    (hexp : ¬ ((expiryMs : Int) < (now : Int) - (p.timestamp : Int)))
    (hp : hasRealProgress p = true) :
    loadFromStorage t (some p) now =
      ({ t with
          sessionId := p.sessionId
          currentStep := if p.currentStep = 0 then 1 else p.currentStep
          datasetInfo := p.datasetInfo
          preprocessingConfig := p.preprocessingConfig
          splitConfig := p.splitConfig
          modelConfig := p.modelConfig
          results := p.results
          fileUrl := p.fileUrl
          fileName := p.fileName }, some p) := by
  simp [loadFromStorage, hexp, hp]

/-- Helper: shape of loadFromStorage on an unexpired snapshot without real
progress. -/
theorem loadFromStorage_noProgress (t : PipelineState) (p : PersistedState)
    (now : Nat)
    (hexp : ¬ ((expiryMs : Int) < (now : Int) - (p.timestamp : Int)))
    (hp : hasRealProgress p = false) :
    loadFromStorage t (some p) now = (t, some p) := by
  simp [loadFromStorage, hexp, hp]

/-- C2 (counterexample): a snapshot capturing a state where the dataset has
been uploaded and the user has advanced to step 2, but no downstream
configuration exists yet, is written and immediately read back within the
horizon, and the read surfaces nothing: the restored dataset field stays
empty even though something meaningful (a DatasetDescriptor) was captured
and the state was not a pure step-1 state. -/
theorem save_load_roundtrip_cex :
    sDatasetOnly.datasetInfo = some dataA ∧
    sDatasetOnly.currentStep = 2 ∧
    (loadFromStorage initialState (saveToStorage sDatasetOnly 0) 0).1
      = initialState ∧
    (loadFromStorage initialState (saveToStorage sDatasetOnly 0) 0).1.datasetInfo
      = none := by
  decide

/-- C2 (amended): write then read within the 24-hour horizon restores
exactly the persisted fields (with a stored step index of 0 normalized
to 1) whenever the written snapshot has a DatasetDescriptor and at least
one of PreprocessingConfig, SplitConfig, ModelConfig or TrainingResult;
any other snapshot, including a dataset-only one, reads back as absent and
leaves the in-memory state unchanged. -/
theorem save_load_roundtrip (s t : PipelineState) (ts now : Nat)
    (h : (now : Int) - (ts : Int) ≤ (expiryMs : Int)) :
    (hasRealProgress (persistedOf s ts) = true →
      (loadFromStorage t (saveToStorage s ts) now).1.sessionId = s.sessionId ∧
      (loadFromStorage t (saveToStorage s ts) now).1.currentStep
        = (if s.currentStep = 0 then 1 else s.currentStep) ∧
      (loadFromStorage t (saveToStorage s ts) now).1.datasetInfo = s.datasetInfo ∧
      (loadFromStorage t (saveToStorage s ts) now).1.preprocessingConfig
        = s.preprocessingConfig ∧
      (loadFromStorage t (saveToStorage s ts) now).1.splitConfig = s.splitConfig ∧
      (loadFromStorage t (saveToStorage s ts) now).1.modelConfig = s.modelConfig ∧
      (loadFromStorage t (saveToStorage s ts) now).1.results = s.results ∧
      (loadFromStorage t (saveToStorage s ts) now).1.fileUrl = s.fileUrl ∧
      (loadFromStorage t (saveToStorage s ts) now).1.fileName = s.fileName) ∧
    (hasRealProgress (persistedOf s ts) = false →
      (loadFromStorage t (saveToStorage s ts) now).1 = t) := by
  have hexp : ¬ ((expiryMs : Int) < (now : Int) - ((persistedOf s ts).timestamp : Int)) := by
    show ¬ ((expiryMs : Int) < (now : Int) - (ts : Int))
    omega
  constructor
  · intro hp
    rw [saveToStorage, loadFromStorage_fresh t (persistedOf s ts) now hexp hp]
    exact ⟨rfl, rfl, rfl, rfl, rfl, rfl, rfl, rfl, rfl⟩
  · intro hp
    rw [saveToStorage, loadFromStorage_noProgress t (persistedOf s ts) now hexp hp]

/-- Witness for C2: a fully configured state written at time 0 and read at
time 5 restores all persisted fields. -/
theorem save_load_roundtrip_witness :
    (((5 : Nat) : Int) - ((0 : Nat) : Int) ≤ (expiryMs : Int)) ∧
    ((hasRealProgress (persistedOf sFull 0) = true →
      (loadFromStorage initialState (saveToStorage sFull 0) 5).1.sessionId = sFull.sessionId ∧
      (loadFromStorage initialState (saveToStorage sFull 0) 5).1.currentStep
        = (if sFull.currentStep = 0 then 1 else sFull.currentStep) ∧
      (loadFromStorage initialState (saveToStorage sFull 0) 5).1.datasetInfo = sFull.datasetInfo ∧
      (loadFromStorage initialState (saveToStorage sFull 0) 5).1.preprocessingConfig
        = sFull.preprocessingConfig ∧
      (loadFromStorage initialState (saveToStorage sFull 0) 5).1.splitConfig = sFull.splitConfig ∧
      (loadFromStorage initialState (saveToStorage sFull 0) 5).1.modelConfig = sFull.modelConfig ∧
      (loadFromStorage initialState (saveToStorage sFull 0) 5).1.results = sFull.results ∧
      (loadFromStorage initialState (saveToStorage sFull 0) 5).1.fileUrl = sFull.fileUrl ∧
      (loadFromStorage initialState (saveToStorage sFull 0) 5).1.fileName = sFull.fileName) ∧
    (hasRealProgress (persistedOf sFull 0) = false →
      (loadFromStorage initialState (saveToStorage sFull 0) 5).1 = initialState)) :=
  ⟨by decide, save_load_roundtrip sFull initialState 0 5 (by decide)⟩

/-- C4 (counterexample): with every configuration present but a model
config whose kind, target and features are all empty, step 5 is reported
reachable even though the model config is not fully valid in the sense the
spec states (kind, target and at least one feature). -/
theorem canProceedToStep_validity_cex :
    canProceedToStep sFullEmptyMC 5 = true ∧
    specFullyValidModelConfig sFullEmptyMC.modelConfig = false := by
  decide

/-- C4 (amended): for steps 1 to 5, canProceedToStep returns true only if
every strictly earlier step's configuration is present, where step 4's
requirement is mere presence of a ModelConfig (the store never checks its
internal validity); step 1 is always enterable. -/
theorem canProceedToStep_requires_presence (s : PipelineState) (n : Nat)
    (h1 : 1 ≤ n) (h2 : n ≤ 5) (h : canProceedToStep s n = true) :
    (∀ k, 1 ≤ k → k < n → stepConfigPresent s k = true) ∧
    canProceedToStep s 1 = true := by
  refine ⟨?_, rfl⟩
  intro k hk1 hk2
  interval_cases n <;> interval_cases k <;>
    simp_all [canProceedToStep, stepConfigPresent]

/-- Witness for C4: on the fully configured sample state, step 5 is
reachable and every earlier step's configuration is indeed present. -/
theorem canProceedToStep_requires_presence_witness :
    ((1 : Nat) ≤ 5 ∧ (5 : Nat) ≤ 5 ∧ canProceedToStep sFull 5 = true) ∧
    ((∀ k, 1 ≤ k → k < 5 → stepConfigPresent sFull k = true) ∧
     canProceedToStep sFull 1 = true) :=
  ⟨⟨by decide, by decide, by decide⟩,
   canProceedToStep_requires_presence sFull 5 (by decide) (by decide) (by decide)⟩

/-- Helper: the preprocessing_steps list is empty exactly when no scaler is
configured (config absent or the scaler string empty) or the configured
scaler is the literal none. -/
theorem preprocessingSteps_empty_iff (pre : Option PreprocessingConfig) :
    preprocessingSteps pre = [] ↔
      (effectiveScaler pre = none ∨ effectiveScaler pre = some "none") := by
  cases pre with
  | none => simp [preprocessingSteps, effectiveScaler]
  | some c =>
      by_cases h1 : c.scaler = ""
      · simp [preprocessingSteps, effectiveScaler, scalerActiveC, h1]
      · by_cases h2 : c.scaler = "none"
        · simp [preprocessingSteps, effectiveScaler, scalerActiveC, h1, h2]
        · simp [preprocessingSteps, effectiveScaler, scalerActiveC, h1, h2]

/-- C10: started with no SplitConfig (and the preprocessing call, when one
is made, succeeding), the run still issues the train request, its split
ratio defaults to 0.2, and its preprocessing_steps list is empty exactly
when no scaler is configured or the configured scaler is the literal
none. -/
theorem train_request_default_split (sid : String) (mc : ModelConfig)
    (pre : Option PreprocessingConfig) (o : RunObs)
    (trainOut : Except String TrainingResult)
    (hmc : modelConfigIncomplete mc = false) :
    ∃ req : TrainRequest,
      (runTraining { sessionId := some sid, preprocessingConfig := pre,
                     splitConfig := none, modelConfig := some mc } o
          (Except.ok ()) trainOut).request = some req ∧
      req.split_ratio = 0.2 ∧
      (req.preprocessing_steps = [] ↔
        (effectiveScaler pre = none ∨ effectiveScaler pre = some "none")) := by
  have hreq :
      (runTraining { sessionId := some sid, preprocessingConfig := pre,
                     splitConfig := none, modelConfig := some mc } o
          (Except.ok ()) trainOut).request =
        some { session_id := sid
               model_type := mc.modelType
               split_ratio := splitRatioArg none
               target_column := mc.targetColumn
               feature_columns := mc.featureColumns
               preprocessing_steps := preprocessingSteps pre } := by
    cases pre with
    | none => cases trainOut <;> simp [runTraining, runTrainingRest, hmc]
    | some c =>
        by_cases hc : scalerActiveC c = true
        · cases trainOut <;>
            simp [runTraining, runTrainingRest, hmc, hc, preprocessingSteps]
        · cases trainOut <;>
            simp [runTraining, runTrainingRest, hmc, hc, preprocessingSteps]
  exact ⟨_, hreq, rfl, preprocessingSteps_empty_iff pre⟩

/-- Witness for C10: a concrete run with a valid model config, the scaler
set to none and no split config issues a train request with ratio 0.2 and
an empty preprocessing_steps list. -/
theorem train_request_default_split_witness :
    modelConfigIncomplete mcValid = false ∧
    ∃ req : TrainRequest,
      (runTraining { sessionId := some "sess-1",
                     preprocessingConfig := some { scaler := "none" },
                     splitConfig := none, modelConfig := some mcValid }
          retrainObs (Except.ok ()) (Except.ok resNew)).request = some req ∧
      req.split_ratio = 0.2 ∧
      (req.preprocessing_steps = [] ↔
        (effectiveScaler (some { scaler := "none" }) = none ∨
         effectiveScaler (some { scaler := "none" }) = some "none")) :=
  ⟨by decide,
   train_request_default_split "sess-1" mcValid (some { scaler := "none" })
     retrainObs (Except.ok resNew) (by decide)⟩

/-- Store inputs of a retrain with no preprocessing configured. -/
def retrainInp : RunInputs :=
  { sessionId := some "sess-1"
    preprocessingConfig := none
    splitConfig := none
    modelConfig := some mcValid }

/-- C3 (counterexample): triggering a retrain from a state where the old
result is visible (local display and store both hold it, phase complete at
100 percent) immediately blanks the component-local visible result at the
very first mutation of the run while training is in progress, and the
phase machine restarts at uploading with progress 10, not idle or loading
at 0 percent. -/
theorem retrain_restart_cex :
    retrainObs.localResults = some resOld ∧
    retrainObs.storeResults = some resOld ∧
    ((runTraining retrainInp retrainObs (Except.ok ())
        (Except.ok resNew)).trace[0]?).map RunObs.localResults = some none ∧
    ((runTraining retrainInp retrainObs (Except.ok ())
        (Except.ok resNew)).trace[0]?).map RunObs.isTraining = some true ∧
    ((runTraining retrainInp retrainObs (Except.ok ())
        (Except.ok resNew)).trace[1]?).map (fun x => x.anim.progress)
      = some 10 ∧
    ((runTraining retrainInp retrainObs (Except.ok ())
        (Except.ok resNew)).trace[1]?).map (fun x => x.anim.currentPhase)
      = some Phase.uploading :=
  ⟨rfl, rfl, rfl, rfl, rfl, rfl⟩

/-- C3 (amended): on a retrain that passes the guards and whose remote
calls succeed, the store-held TrainingResult of the previous run is
retained at every point of the new run until the new result arrives (any
trace point either still holds the old store result or already holds the
new one at phase complete), the final state commits the new result, and
the run starts by blanking the component-local visible result and
restarting the narration at uploading with progress 10. -/
theorem retrain_keeps_store_result (sid : String) (mc : ModelConfig)
    (pre : Option PreprocessingConfig) (split : Option SplitConfig)
    (o : RunObs) (resp : TrainingResult)
    (hmc : modelConfigIncomplete mc = false) :
    (∀ x ∈ (runTraining ⟨some sid, pre, split, some mc⟩ o
        (Except.ok ()) (Except.ok resp)).trace,
      x.storeResults = o.storeResults ∨
        (x.storeResults = some resp ∧ x.anim.currentPhase = Phase.complete)) ∧
    (runTraining ⟨some sid, pre, split, some mc⟩ o
        (Except.ok ()) (Except.ok resp)).final.storeResults = some resp ∧
    (runTraining ⟨some sid, pre, split, some mc⟩ o
        (Except.ok ()) (Except.ok resp)).final.localResults = some resp ∧
    (∃ x, (runTraining ⟨some sid, pre, split, some mc⟩ o
        (Except.ok ()) (Except.ok resp)).trace[1]? = some x ∧
      x.anim = { currentPhase := Phase.uploading, progress := 10,
                 message := "Loading your dataset..." } ∧
      x.localResults = none ∧ x.isTraining = true ∧
      x.storeResults = o.storeResults) := by
  rcases pre with _ | c
  · refine ⟨?_, by simp [runTraining, runTrainingRest, hmc],
      by simp [runTraining, runTrainingRest, hmc], ?_⟩
    · simp [runTraining, runTrainingRest, hmc]
    · simp only [runTraining, runTrainingRest, hmc, Bool.false_eq_true,
        if_false, List.cons_append, List.nil_append]
      exact ⟨_, rfl, rfl, rfl, rfl, rfl⟩
  · by_cases hc : scalerActiveC c = true
    · refine ⟨?_, by simp [runTraining, runTrainingRest, hmc, hc],
        by simp [runTraining, runTrainingRest, hmc, hc], ?_⟩
      · simp [runTraining, runTrainingRest, hmc, hc]
      · simp only [runTraining, runTrainingRest, hmc, hc, Bool.false_eq_true,
          if_false, if_true, List.cons_append, List.nil_append]
        exact ⟨_, rfl, rfl, rfl, rfl, rfl⟩
    · refine ⟨?_, by simp [runTraining, runTrainingRest, hmc, hc],
        by simp [runTraining, runTrainingRest, hmc, hc], ?_⟩
      · simp [runTraining, runTrainingRest, hmc, hc]
      · simp only [runTraining, runTrainingRest, hmc, hc, Bool.false_eq_true,
          if_false, List.cons_append, List.nil_append]
        exact ⟨_, rfl, rfl, rfl, rfl, rfl⟩

/-- Witness for C3: a concrete successful retrain with a valid model
config, old result in the store, no preprocessing and no split config. -/
theorem retrain_keeps_store_result_witness :
    modelConfigIncomplete mcValid = false ∧
    ((∀ x ∈ (runTraining ⟨some "sess-1", none, none, some mcValid⟩ retrainObs
        (Except.ok ()) (Except.ok resNew)).trace,
      x.storeResults = retrainObs.storeResults ∨
        (x.storeResults = some resNew ∧
         x.anim.currentPhase = Phase.complete)) ∧
    (runTraining ⟨some "sess-1", none, none, some mcValid⟩ retrainObs
        (Except.ok ()) (Except.ok resNew)).final.storeResults = some resNew ∧
    (runTraining ⟨some "sess-1", none, none, some mcValid⟩ retrainObs
        (Except.ok ()) (Except.ok resNew)).final.localResults = some resNew ∧
    (∃ x, (runTraining ⟨some "sess-1", none, none, some mcValid⟩ retrainObs
        (Except.ok ()) (Except.ok resNew)).trace[1]? = some x ∧
      x.anim = { currentPhase := Phase.uploading, progress := 10,
                 message := "Loading your dataset..." } ∧
      x.localResults = none ∧ x.isTraining = true ∧
      x.storeResults = retrainObs.storeResults)) :=
  ⟨by decide,
   retrain_keeps_store_result "sess-1" mcValid none none retrainObs resNew
     (by decide)⟩

/-- C5: if a remote call issued during a run that passed the guards fails
(the preprocessing call when one is made, or the train call), the run
aborts: the final animation state is idle at progress 0, an error built
from the failing call's message is surfaced, no partial result is stored
locally, the store-held result is untouched at the end and at every point
of the run, and both busy flags are cleared. -/
theorem training_failure_aborts (sid : String) (mc : ModelConfig)
    (pre : Option PreprocessingConfig) (split : Option SplitConfig)
    (o : RunObs) (preOut : Except String Unit)
    (trainOut : Except String TrainingResult)
    (hmc : modelConfigIncomplete mc = false)
    (hfail : (scalerActive pre = true ∧ ∃ e, preOut = Except.error e) ∨
             (∃ e, trainOut = Except.error e)) :
    (runTraining ⟨some sid, pre, split, some mc⟩ o preOut trainOut).final.anim
      = { currentPhase := Phase.idle, progress := 0,
          message := "Training failed" } ∧
    (∃ m, (runTraining ⟨some sid, pre, split, some mc⟩ o preOut
        trainOut).final.error = some (errMessage m) ∧
      ((scalerActive pre = true ∧ preOut = Except.error m) ∨
        trainOut = Except.error m)) ∧
    (runTraining ⟨some sid, pre, split, some mc⟩ o preOut
        trainOut).final.storeResults = o.storeResults ∧
    (runTraining ⟨some sid, pre, split, some mc⟩ o preOut
        trainOut).final.localResults = none ∧
    (runTraining ⟨some sid, pre, split, some mc⟩ o preOut
        trainOut).final.isTraining = false ∧
    (runTraining ⟨some sid, pre, split, some mc⟩ o preOut
        trainOut).final.isRunning = false ∧
    (∀ x ∈ (runTraining ⟨some sid, pre, split, some mc⟩ o preOut
        trainOut).trace, x.storeResults = o.storeResults) := by
  rcases pre with _ | c
  · rcases hfail with ⟨hsa, _⟩ | ⟨e, he⟩
    · simp [scalerActive] at hsa
    · subst he
      refine ⟨by simp [runTraining, runTrainingRest, hmc, failObs],
        ⟨e, by simp [runTraining, runTrainingRest, hmc, failObs], Or.inr rfl⟩,
        by simp [runTraining, runTrainingRest, hmc, failObs],
        by simp [runTraining, runTrainingRest, hmc, failObs],
        by simp [runTraining, runTrainingRest, hmc, failObs],
        by simp [runTraining, runTrainingRest, hmc, failObs],
        by simp [runTraining, runTrainingRest, hmc, failObs]⟩
  · by_cases hc : scalerActiveC c = true
    · cases preOut with
      | error e0 =>
          refine ⟨by simp [runTraining, hmc, hc, failObs],
            ⟨e0, by simp [runTraining, hmc, hc, failObs],
              Or.inl ⟨by simp [scalerActive, hc], rfl⟩⟩,
            by simp [runTraining, hmc, hc, failObs],
            by simp [runTraining, hmc, hc, failObs],
            by simp [runTraining, hmc, hc, failObs],
            by simp [runTraining, hmc, hc, failObs],
            by simp [runTraining, hmc, hc, failObs]⟩
      | ok u =>
          rcases hfail with ⟨_, e1, he1⟩ | ⟨e, he⟩
          · exact absurd he1 (by simp)
          · subst he
            refine ⟨by simp [runTraining, runTrainingRest, hmc, hc, failObs],
              ⟨e, by simp [runTraining, runTrainingRest, hmc, hc, failObs],
                Or.inr rfl⟩,
              by simp [runTraining, runTrainingRest, hmc, hc, failObs],
              by simp [runTraining, runTrainingRest, hmc, hc, failObs],
              by simp [runTraining, runTrainingRest, hmc, hc, failObs],
              by simp [runTraining, runTrainingRest, hmc, hc, failObs],
              by simp [runTraining, runTrainingRest, hmc, hc, failObs]⟩
    · rcases hfail with ⟨hsa, _⟩ | ⟨e, he⟩
      · rw [scalerActive] at hsa
        exact absurd hsa hc
      · subst he
        refine ⟨by simp [runTraining, runTrainingRest, hmc, hc, failObs],
          ⟨e, by simp [runTraining, runTrainingRest, hmc, hc, failObs],
            Or.inr rfl⟩,
          by simp [runTraining, runTrainingRest, hmc, hc, failObs],
          by simp [runTraining, runTrainingRest, hmc, hc, failObs],
          by simp [runTraining, runTrainingRest, hmc, hc, failObs],
          by simp [runTraining, runTrainingRest, hmc, hc, failObs],
          by simp [runTraining, runTrainingRest, hmc, hc, failObs]⟩

/-- Witness for C5: a concrete run whose preprocessing call fails aborts
with the idle animation, the surfaced error, no stored partial result and
the old store result intact. -/
theorem training_failure_aborts_witness :
    modelConfigIncomplete mcValid = false ∧
    ((scalerActive (some { scaler := "StandardScaler" }) = true ∧
      ∃ e, (Except.error "boom" : Except String Unit) = Except.error e) ∨
     (∃ e, (Except.ok resNew : Except String TrainingResult)
        = Except.error e)) ∧
    ((runTraining ⟨some "sess-1", some { scaler := "StandardScaler" }, none,
        some mcValid⟩ retrainObs (Except.error "boom")
        (Except.ok resNew)).final.anim
      = { currentPhase := Phase.idle, progress := 0,
          message := "Training failed" } ∧
    (∃ m, (runTraining ⟨some "sess-1", some { scaler := "StandardScaler" },
        none, some mcValid⟩ retrainObs (Except.error "boom")
        (Except.ok resNew)).final.error = some (errMessage m) ∧
      ((scalerActive (some { scaler := "StandardScaler" }) = true ∧
        (Except.error "boom" : Except String Unit) = Except.error m) ∨
        (Except.ok resNew : Except String TrainingResult)
          = Except.error m)) ∧
    (runTraining ⟨some "sess-1", some { scaler := "StandardScaler" }, none,
        some mcValid⟩ retrainObs (Except.error "boom")
        (Except.ok resNew)).final.storeResults = retrainObs.storeResults ∧
    (runTraining ⟨some "sess-1", some { scaler := "StandardScaler" }, none,
        some mcValid⟩ retrainObs (Except.error "boom")
        (Except.ok resNew)).final.localResults = none ∧
    (runTraining ⟨some "sess-1", some { scaler := "StandardScaler" }, none,
        some mcValid⟩ retrainObs (Except.error "boom")
        (Except.ok resNew)).final.isTraining = false ∧
    (runTraining ⟨some "sess-1", some { scaler := "StandardScaler" }, none,
        some mcValid⟩ retrainObs (Except.error "boom")
        (Except.ok resNew)).final.isRunning = false ∧
    (∀ x ∈ (runTraining ⟨some "sess-1", some { scaler := "StandardScaler" },
        none, some mcValid⟩ retrainObs (Except.error "boom")
        (Except.ok resNew)).trace,
      x.storeResults = retrainObs.storeResults)) :=
  ⟨by decide, Or.inl ⟨by decide, ⟨"boom", rfl⟩⟩,
   training_failure_aborts "sess-1" mcValid
     (some { scaler := "StandardScaler" }) none retrainObs
     (Except.error "boom") (Except.ok resNew) (by decide)
     (Or.inl ⟨by decide, ⟨"boom", rfl⟩⟩)⟩
